import Mathlib

/-!
Verification of the simplifit adaptive macro engine
(`src/backend/routes/macros.py`) against its natural-language
specification.

The engine is embedded shallowly: Python floats become exact rationals
(`ℚ`), dates become integer day numbers (`ℤ`, day granularity exactly as
the data model states), exceptions become `Except String`, and Python
tuples of varying arity become the `PyTuple` sum type (the source
function `calculate_weekly_weight_changes` really does return a 2-tuple
on its early exits and a 3-tuple otherwise, and the distinction is
observable because every caller unpacks three values).  `datetime.now()`
becomes an explicit `now : ℤ` parameter.
-/

namespace Simplifit

attribute [local semireducible] Rat.add Rat.sub Rat.mul Rat.inv Rat.ofScientific

/-- Conversion constant `LB_TO_KG = 0.453592` from macros.py. -/
def LB_TO_KG : ℚ := 0.453592

/-- Conversion constant `INCH_TO_CM = 2.54` from macros.py. -/
def INCH_TO_CM : ℚ := 2.54

/-- Conversion constant `KG_TO_LB = 2.20462` from macros.py. -/
def KG_TO_LB : ℚ := 2.20462

/-- Source `MIN_WEIGHT_LB = 40`. -/
def MIN_WEIGHT_LB : ℚ := 40

/-- Source `MAX_WEIGHT_LB = 700`. -/
def MAX_WEIGHT_LB : ℚ := 700

/-- Source `MIN_HEIGHT_INCHES = 36`. -/
def MIN_HEIGHT_INCHES : ℚ := 36

/-- Source `MAX_HEIGHT_INCHES = 108`. -/
def MAX_HEIGHT_INCHES : ℚ := 108

/-- Source `MIN_AGE = 16`. -/
def MIN_AGE : ℚ := 16

/-- Source `MAX_AGE = 100`. -/
def MAX_AGE : ℚ := 100

/-- Source `MIN_CALORIES_MALE = 1500`. -/
def MIN_CALORIES_MALE : ℚ := 1500

/-- Source `MIN_CALORIES_FEMALE = 1200`. -/
def MIN_CALORIES_FEMALE : ℚ := 1200

/-- Source `MAX_DEFICIT_ADJUSTMENT = 0.15`. -/
def MAX_DEFICIT_ADJUSTMENT : ℚ := 0.15

/-- Source `MAX_SURPLUS_ADJUSTMENT = 0.10`. -/
def MAX_SURPLUS_ADJUSTMENT : ℚ := 0.10

/-- Source `MIN_DEFICIT = 0.10`. -/
def MIN_DEFICIT : ℚ := 0.10

/-- Source `MAX_DEFICIT = 0.30`. -/
def MAX_DEFICIT : ℚ := 0.30

/-- Source `MIN_SURPLUS = 0.03`. -/
def MIN_SURPLUS : ℚ := 0.03

/-- Source `MAX_SURPLUS = 0.15`. -/
def MAX_SURPLUS : ℚ := 0.15

/-- Source `CALORIE_ADJUSTMENT_FACTOR = 7700`. -/
def CALORIE_ADJUSTMENT_FACTOR : ℚ := 7700

/-- Source `MIN_WEIGHT_ENTRIES_PER_WEEK = 3`. -/
def MIN_WEIGHT_ENTRIES_PER_WEEK : ℚ := 3

/-- Source `MAX_WEIGHT_VARIANCE = 2.0` (kg). -/
def MAX_WEIGHT_VARIANCE : ℚ := 2.0

/-- Source `MAINTENANCE_PHASE_DURATION = 14` (days). -/
def MAINTENANCE_PHASE_DURATION : ℤ := 14

/-- Source `MAX_DEFICIT_DURATION = 90` (days). -/
def MAX_DEFICIT_DURATION : ℤ := 90

/-- Source `METABOLIC_ADAPTATION_THRESHOLD = 0.15`. -/
def METABOLIC_ADAPTATION_THRESHOLD : ℚ := 0.15

/-- Source `MIN_PROTEIN_G_PER_KG = 1.7`. -/
def MIN_PROTEIN_G_PER_KG : ℚ := 1.7

/-- A weight entry (`backend/models/weight.py`): a date (day number) and a
weight stored in pounds. -/
structure WeightEntry where
  date : ℤ
  weight : ℚ
deriving DecidableEq, Repr

/-- The slice of the `User` model consumed by the macro engine. -/
structure User where
  gender : String
  weight : ℚ
  height : ℚ
  age : ℚ
  activity_level : String
  goal : String
  intensity : String
  preferred_unit : String
deriving DecidableEq, Repr

/-- Source `validate_measurements` (macros.py lines 107-148): range checks on
weight (lb), height (in) and age (yr), raising `ValidationError` on the
first violated bound. -/
def validate_measurements (weight_lb height_inches age : ℚ) : Except String Unit :=
  if weight_lb < MIN_WEIGHT_LB then .error ("Weight must be at least 40 pounds.")
  else if weight_lb > MAX_WEIGHT_LB then .error ("Weight must be at most 700 pounds.")
  else if height_inches < MIN_HEIGHT_INCHES then .error ("Height must be at least 36 inches.")
  else if height_inches > MAX_HEIGHT_INCHES then .error ("Height must be at most 108 inches.")
  else if age < MIN_AGE then .error ("Age must be at least 16 years.")
  else if age > MAX_AGE then .error ("Age must be at most 100 years.")
  else .ok ()

/-- Source `convert_to_metric` (macros.py lines 150-160).  Note: the source
passes the literal `0` as the age to `validate_measurements` (with the
comment that age validation is not needed for conversion), so the age
check `0 < MIN_AGE` fires on every call. -/
def convert_to_metric (weight_lb height_inches : ℚ) : Except String (ℚ × ℚ) :=
  match validate_measurements weight_lb height_inches 0 with
  | .error e => .error ("Invalid measurements for conversion: " ++ e)
  | .ok _ => .ok (weight_lb * LB_TO_KG, height_inches * INCH_TO_CM)

/-- The `activity_multipliers` dict of `calculate_theoretical_tdee`. -/
def activityMultiplier (a : String) : Option ℚ :=
  if a = "sedentary" then some 1.2
  else if a = "light" then some 1.375
  else if a = "moderate" then some 1.55
  else if a = "active" then some 1.725
  else if a = "very_active" then some 1.9
  else none

/-- The Mifflin-St Jeor BMR as computed in macros.py (lines 185-188 and
631-634): `10*kg + 6.25*cm - 5*age + 5` for `gender == male`, with a
`-161` offset otherwise. -/
def mifflinBmr (gender : String) (weight_kg height_cm age : ℚ) : ℚ :=
  if gender = "male" then 10 * weight_kg + 6.25 * height_cm - 5 * age + 5
  else 10 * weight_kg + 6.25 * height_cm - 5 * age - 161

/-- Source `calculate_theoretical_tdee` (macros.py lines 175-216): validates the
profile, converts to metric, computes the Mifflin-St Jeor BMR and
multiplies by the activity factor.  The `try/except` re-raise is modelled
by the error-message prefix. -/
def calculate_theoretical_tdee (u : User) : Except String ℚ :=
  Except.mapError (fun e => "Error calculating TDEE: " ++ e)
    (match validate_measurements u.weight u.height u.age with
     | .error e => .error e
     | .ok _ =>
       match convert_to_metric u.weight u.height with
       | .error e => .error e
       | .ok (weight_kg, height_cm) =>
         let bmr := mifflinBmr u.gender weight_kg height_cm u.age
         if bmr ≤ 0 then .error ("Calculated BMR is invalid (must be positive)")
         else
           match activityMultiplier u.activity_level with
           | none => .error ("Invalid activity level: " ++ u.activity_level)
           | some m =>
             let tdee := bmr * m
             if tdee ≤ 0 then .error ("Calculated TDEE is invalid (must be positive)")
             else .ok tdee)

theorem convert_to_metric_always_errors (w h : ℚ) :
    ∃ m, convert_to_metric w h = Except.error m := by
  unfold convert_to_metric validate_measurements
  split_ifs with h1 h2 h3 h4 h5 h6 <;> first
    | exact ⟨_, rfl⟩
    | simp [MIN_AGE] at h5

/-- C1.  The claim states that for every in-range profile with a valid
activity level, `calculate_theoretical_tdee` succeeds with
`tdee > bmr > 0`.  In fact it never succeeds: `convert_to_metric`
validates with the literal age `0`, which fails the `age >= MIN_AGE`
check, so `calculate_theoretical_tdee` raises a `ValidationError` for
every profile whatsoever. -/
theorem c1_theoretical_tdee_never_succeeds (u : User) :
    ∃ m, calculate_theoretical_tdee u = Except.error m := by
  obtain ⟨mc, hmc⟩ := convert_to_metric_always_errors u.weight u.height
  unfold calculate_theoretical_tdee
  cases hv : validate_measurements u.weight u.height u.age with
  | error e => exact ⟨_, rfl⟩
  | ok _ => exact ⟨_, by rw [hmc]; rfl⟩

/-- A Python tuple of arity 2 or 3, as returned by
`calculate_weekly_weight_changes`: the source returns `[], None` from its
three early exits (lines 309, 334, 364) and
`weekly_changes, current_rate, trend` from its normal exit (line 386). -/
inductive PyTuple where
  | two (changes : List ℚ) (rate : Option ℚ)
  | three (changes : List ℚ) (rate : Option ℚ) (trend : Option ℚ)
deriving DecidableEq, Repr

/-- Python 3-way tuple unpacking `a, b, c = t`: succeeds on a 3-tuple and
raises `ValueError` on a 2-tuple. -/
def unpack3 : PyTuple → Except String (List ℚ × Option ℚ × Option ℚ)
  | .two _ _ => .error ("ValueError: not enough values to unpack (expected 3, got 2)")
  | .three a b c => .ok (a, b, c)

/-- Stable insertion (ascending by date) used to model Python `sorted`
with `key=lambda x: x.date`: an element is placed after all existing
elements with date less than or equal to its own. -/
def insertByDate (e : WeightEntry) : List WeightEntry → List WeightEntry
  | [] => [e]
  | x :: xs => if x.date ≤ e.date then x :: insertByDate e xs else e :: x :: xs

/-- Stable ascending-by-date sort (Python `sorted(entries, key=...)`). -/
def sortEntries (es : List WeightEntry) : List WeightEntry :=
  es.foldl (fun acc e => insertByDate e acc) []

/-- The daily-change loop of `calculate_weekly_weight_changes` (macros.py
lines 315-331): per adjacent pair of sorted entries, the kg change per
day tagged with the later date, skipping same-day pairs. -/
def dailyChanges : List WeightEntry → List (ℤ × ℚ)
  | [] => []
  | [_] => []
  | prev :: curr :: rest =>
    let days := curr.date - prev.date
    if days = 0 then dailyChanges (curr :: rest)
    else (curr.date, (curr.weight * LB_TO_KG - prev.weight * LB_TO_KG) / (days : ℚ))
      :: dailyChanges (curr :: rest)

/-- Accumulator of the weekly-grouping loop: the finished weekly averages,
the current period (in order), and the current period start date. -/
structure GroupState where
  weekly : List ℚ
  week : List (ℤ × ℚ)
  start : ℤ
deriving Repr

/-- Flushing one period (macros.py lines 344-350 and 357-361): the mean
daily change of the period, normalized to a 7-day rate by the period
span. -/
def flushWeek (week : List (ℤ × ℚ)) (weekly : List ℚ) : List ℚ :=
  match week with
  | [] => weekly
  | w :: ws =>
    let lastDate := (((w :: ws).getLast?).map Prod.fst).getD w.1
    let period_days : ℚ := ((lastDate - w.1 : ℤ) : ℚ) + 1
    let weekly_avg := ((w :: ws).map Prod.snd).sum / (((w :: ws).length : ℕ) : ℚ)
    weekly ++ [weekly_avg * (7 / period_days)]

/-- One step of the grouping loop (macros.py lines 341-354): once the span
from the period start reaches 6 days, flush the period and start a new
one at the current date; then append the current point. -/
def groupStep (st : GroupState) (p : ℤ × ℚ) : GroupState :=
  if p.1 - st.start ≥ 6 then
    { weekly := flushWeek st.week st.weekly, week := [p], start := p.1 }
  else { st with week := st.week ++ [p] }

/-- Source `calculate_weekly_weight_changes` (macros.py lines 302-386).  Note the
return arity: a 2-tuple `([], None)` on each of the three early exits and
a 3-tuple on the normal exit. -/
def calculate_weekly_weight_changes (weight_entries : List WeightEntry) : PyTuple :=
  if weight_entries.length < 2 then .two [] none
  else
    let sorted := sortEntries weight_entries
    let dcs := dailyChanges sorted
    match dcs with
    | [] => .two [] none
    | d0 :: _ =>
      let stF := dcs.foldl groupStep ⟨[], [], d0.1⟩
      let weekly := flushWeek stF.week stF.weekly
      match weekly with
      | [] => .two [] none
      | _ :: _ =>
        let n := weekly.length
        let ws := ((List.range n).map (fun i => (0.85 : ℚ) ^ i)).reverse
        let total := ws.sum
        let normalized := ws.map (fun w => w / total)
        let current_rate := ((weekly.zip normalized).map (fun p => p.1 * p.2)).sum
        let trend :=
          match weekly.reverse with
          | a :: b :: _ => some (a - b)
          | _ => none
        .three weekly (some current_rate) trend

/-- C3.  The claim states that for fewer than 2 entries the function
returns the triple `([], None, None)`.  The source instead returns the
pair `([], None)` (line 309) — a 2-tuple, not a 3-tuple — so every
3-way unpacking by each caller of the result raises `ValueError`.  Shown here
at the concrete failing inputs: the empty history and a single-entry
history. -/
theorem c3_short_history_returns_pair :
    calculate_weekly_weight_changes [] = PyTuple.two [] none ∧
    calculate_weekly_weight_changes [⟨0, 180⟩] = PyTuple.two [] none ∧
    ∀ es : List WeightEntry, es.length < 2 →
      ∃ m, unpack3 (calculate_weekly_weight_changes es) = Except.error m := by
  refine ⟨rfl, rfl, ?_⟩
  intro es hes
  unfold calculate_weekly_weight_changes
  rw [if_pos hes]
  exact ⟨_, rfl⟩

/-- Witness for the hypothesis-bearing conjunct of C3: the empty history
has length below 2 and its unpacking fails. -/
theorem c3_short_history_returns_pair_witness :
    ([] : List WeightEntry).length < 2 ∧
    ∃ m, unpack3 (calculate_weekly_weight_changes []) = Except.error m :=
  ⟨by decide, c3_short_history_returns_pair.2.2 [] (by decide)⟩

/-- Source `WEIGHT_LOSS_TARGETS.get(intensity, (0.45, 0.68))`. -/
def weightLossTargets (intensity : String) : ℚ × ℚ :=
  if intensity = "moderate" then (0.45, 0.68)
  else if intensity = "aggressive" then (0.68, 0.91)
  else (0.45, 0.68)

/-- Source `WEIGHT_GAIN_TARGETS.get(intensity, (0.11, 0.23))`. -/
def weightGainTargets (intensity : String) : ℚ × ℚ :=
  if intensity = "moderate" then (0.11, 0.23)
  else if intensity = "aggressive" then (0.23, 0.34)
  else (0.11, 0.23)

/-- The pure core of `calculate_adaptive_deficit` (macros.py lines
399-444), applied after the weekly-change unpacking succeeds. -/
def deficitFromRate (current_rate : Option ℚ) (intensity : String) : ℚ :=
  match current_rate with
  | none => 0.15
  | some cr =>
    let t := weightLossTargets intensity
    let min_target := t.1
    let max_target := t.2
    if cr > -min_target then
      let dist := |(-min_target - cr) / min_target|
      let adj0 := if dist < 0.2 then dist * 0.2 else dist * 0.3
      let adj := min adj0 MAX_DEFICIT_ADJUSTMENT
      min (0.15 + adj) MAX_DEFICIT
    else if cr < -max_target then
      let dist := |(cr + max_target) / max_target|
      let adj0 := if dist < 0.2 then dist * 0.2 else dist * 0.3
      let adj := min adj0 MAX_DEFICIT_ADJUSTMENT
      max (0.15 - adj) MIN_DEFICIT
    else 0.15

/-- Source `calculate_adaptive_deficit` (macros.py lines 388-444).  The 3-way
unpacking at line 397 propagates the `ValueError` from a 2-tuple result
(a history of two or more entries all on the same day). -/
def calculate_adaptive_deficit (user : User) (weight_entries : List WeightEntry)
    (intensity : String) : Except String ℚ :=
  if weight_entries.length < 2 then .ok 0.15
  else
    match unpack3 (calculate_weekly_weight_changes weight_entries) with
    | .error e => .error e
    | .ok (_, current_rate, _) => .ok (deficitFromRate current_rate intensity)

/-- The pure core of `calculate_adaptive_surplus` (macros.py lines
457-502). -/
def surplusFromRate (current_rate : Option ℚ) (intensity : String) : ℚ :=
  match current_rate with
  | none => 0.05
  | some cr =>
    let t := weightGainTargets intensity
    let min_target := t.1
    let max_target := t.2
    if cr < min_target then
      let dist := |(min_target - cr) / min_target|
      let adj0 := if dist < 0.2 then dist * 0.1 else dist * 0.15
      let adj := min adj0 MAX_SURPLUS_ADJUSTMENT
      min (0.05 + adj) MAX_SURPLUS
    else if cr > max_target then
      let dist := |(cr - max_target) / max_target|
      let adj0 := if dist < 0.2 then dist * 0.1 else dist * 0.15
      let adj := min adj0 MAX_SURPLUS_ADJUSTMENT
      max (0.05 - adj) MIN_SURPLUS
    else 0.05

/-- Source `calculate_adaptive_surplus` (macros.py lines 446-502). -/
def calculate_adaptive_surplus (user : User) (weight_entries : List WeightEntry)
    (intensity : String) : Except String ℚ :=
  if weight_entries.length < 2 then .ok 0.05
  else
    match unpack3 (calculate_weekly_weight_changes weight_entries) with
    | .error e => .error e
    | .ok (_, current_rate, _) => .ok (surplusFromRate current_rate intensity)

theorem defClampUp (a : ℚ) (ha : 0 ≤ a) :
    1 / 10 ≤ min (0.15 + min a MAX_DEFICIT_ADJUSTMENT) MAX_DEFICIT ∧
    min (0.15 + min a MAX_DEFICIT_ADJUSTMENT) MAX_DEFICIT ≤ 3 / 10 := by
  have h0 : (0 : ℚ) ≤ min a MAX_DEFICIT_ADJUSTMENT :=
    le_min ha (by norm_num [MAX_DEFICIT_ADJUSTMENT])
  constructor
  · apply le_min
    · have h15 : (1 : ℚ) / 10 ≤ 0.15 := by norm_num
      linarith
    · norm_num [MAX_DEFICIT]
  · exact le_trans (min_le_right _ _) (by norm_num [MAX_DEFICIT])

theorem defClampDown (a : ℚ) (ha : 0 ≤ a) :
    1 / 10 ≤ max (0.15 - min a MAX_DEFICIT_ADJUSTMENT) MIN_DEFICIT ∧
    max (0.15 - min a MAX_DEFICIT_ADJUSTMENT) MIN_DEFICIT ≤ 3 / 10 := by
  have h0 : (0 : ℚ) ≤ min a MAX_DEFICIT_ADJUSTMENT :=
    le_min ha (by norm_num [MAX_DEFICIT_ADJUSTMENT])
  constructor
  · exact le_trans (by norm_num [MIN_DEFICIT]) (le_max_right _ _)
  · apply max_le
    · have h15 : (0.15 : ℚ) ≤ 3 / 10 := by norm_num
      linarith
    · norm_num [MIN_DEFICIT]

theorem surClampUp (a : ℚ) (ha : 0 ≤ a) :
    3 / 100 ≤ min (0.05 + min a MAX_SURPLUS_ADJUSTMENT) MAX_SURPLUS ∧
    min (0.05 + min a MAX_SURPLUS_ADJUSTMENT) MAX_SURPLUS ≤ 3 / 20 := by
  have h0 : (0 : ℚ) ≤ min a MAX_SURPLUS_ADJUSTMENT :=
    le_min ha (by norm_num [MAX_SURPLUS_ADJUSTMENT])
  constructor
  · apply le_min
    · have h05 : (3 : ℚ) / 100 ≤ 0.05 := by norm_num
      linarith
    · norm_num [MAX_SURPLUS]
  · exact le_trans (min_le_right _ _) (by norm_num [MAX_SURPLUS])

theorem surClampDown (a : ℚ) (ha : 0 ≤ a) :
    3 / 100 ≤ max (0.05 - min a MAX_SURPLUS_ADJUSTMENT) MIN_SURPLUS ∧
    max (0.05 - min a MAX_SURPLUS_ADJUSTMENT) MIN_SURPLUS ≤ 3 / 20 := by
  have h0 : (0 : ℚ) ≤ min a MAX_SURPLUS_ADJUSTMENT :=
    le_min ha (by norm_num [MAX_SURPLUS_ADJUSTMENT])
  constructor
  · exact le_trans (by norm_num [MIN_SURPLUS]) (le_max_right _ _)
  · apply max_le
    · have h05 : (0.05 : ℚ) ≤ 3 / 20 := by norm_num
      linarith
    · norm_num [MIN_SURPLUS]

theorem deficitFromRate_bounds (cr : Option ℚ) (i : String) :
    1 / 10 ≤ deficitFromRate cr i ∧ deficitFromRate cr i ≤ 3 / 10 := by
  unfold deficitFromRate
  cases cr with
  | none => norm_num
  | some c =>
    dsimp only
    split_ifs with h1 h2 h3 h4
    · exact defClampUp _ (by positivity)
    · exact defClampUp _ (by positivity)
    · exact defClampDown _ (by positivity)
    · exact defClampDown _ (by positivity)
    · norm_num

theorem surplusFromRate_bounds (cr : Option ℚ) (i : String) :
    3 / 100 ≤ surplusFromRate cr i ∧ surplusFromRate cr i ≤ 3 / 20 := by
  unfold surplusFromRate
  cases cr with
  | none => norm_num
  | some c =>
    dsimp only
    split_ifs with h1 h2 h3 h4
    · exact surClampUp _ (by positivity)
    · exact surClampUp _ (by positivity)
    · exact surClampDown _ (by positivity)
    · exact surClampDown _ (by positivity)
    · norm_num

/-- C5.  Whenever `calculate_adaptive_deficit` produces an output it lies
in `[0.10, 0.30]`, and whenever `calculate_adaptive_surplus` produces an
output it lies in `[0.03, 0.15]`, for every user, history and intensity.
(For a history of two or more entries all dated the same day both
functions instead propagate the `ValueError` of the 3-way unpacking and
produce no output at all.) -/
theorem c5_adaptive_outputs_bounded :
    (∀ (u : User) (es : List WeightEntry) (i : String) (r : ℚ),
      calculate_adaptive_deficit u es i = Except.ok r → 1 / 10 ≤ r ∧ r ≤ 3 / 10) ∧
    (∀ (u : User) (es : List WeightEntry) (i : String) (r : ℚ),
      calculate_adaptive_surplus u es i = Except.ok r → 3 / 100 ≤ r ∧ r ≤ 3 / 20) := by
  constructor
  · intro u es i r h
    unfold calculate_adaptive_deficit at h
    split_ifs at h with hlen
    · cases h; norm_num
    · cases hu : unpack3 (calculate_weekly_weight_changes es) with
      | error e => rw [hu] at h; cases h
      | ok v =>
        rw [hu] at h
        obtain ⟨wc, cr, tr⟩ := v
        cases h
        exact deficitFromRate_bounds cr i
  · intro u es i r h
    unfold calculate_adaptive_surplus at h
    split_ifs at h with hlen
    · cases h; norm_num
    · cases hu : unpack3 (calculate_weekly_weight_changes es) with
      | error e => rw [hu] at h; cases h
      | ok v =>
        rw [hu] at h
        obtain ⟨wc, cr, tr⟩ := v
        cases h
        exact surplusFromRate_bounds cr i

/-- Witness for C5: the default user with the empty history yields the
0.15 default deficit and 0.05 default surplus, both inside their claimed
ranges. -/
theorem c5_adaptive_outputs_bounded_witness :
    ((1 : ℚ) / 10 ≤ 0.15 ∧ (0.15 : ℚ) ≤ 3 / 10) ∧
    ((3 : ℚ) / 100 ≤ 0.05 ∧ (0.05 : ℚ) ≤ 3 / 20) :=
  ⟨c5_adaptive_outputs_bounded.1 ⟨"male", 180, 70, 30, "moderate", "lose", "moderate", "lbs"⟩
      [] "moderate" 0.15 rfl,
   c5_adaptive_outputs_bounded.2 ⟨"male", 180, 70, 30, "moderate", "gain", "moderate", "lbs"⟩
      [] "moderate" 0.05 rfl⟩

/-- The metabolic-adaptation block of `determine_diet_phase` (macros.py
lines 532-561), returning `some` when the block returns (or raises) and
`none` when control falls through.  The unguarded Python float division
`recent_rate / initial_rate` (line 547) raises `ZeroDivisionError` when
`initial_rate` is zero. -/
def adaptationCheck (u : User) (first_date : ℤ) (wc : List ℚ) (now : ℤ) :
    Option (Except String (String × String)) :=
  if u.goal = "lose" ∨ u.goal = "recomp" then
    if now - first_date ≥ MAX_DEFICIT_DURATION then
      some (.ok ("diet_break", "Extended deficit period"))
    else if 4 ≤ wc.length then
      let recent4 := wc.drop (wc.length - 4)
      let initial4 := wc.take 4
      let initial_rate := initial4.sum / 4
      if initial_rate = 0 then some (.error ("ZeroDivisionError: float division by zero"))
      else
        let recent_rate := recent4.sum / 4
        let ind1 :=
          if recent_rate / initial_rate < 1 - METABOLIC_ADAPTATION_THRESHOLD then
            ["Weight loss rate decreasing"] else []
        let last2 := wc.drop (wc.length - 2)
        let ind2 :=
          if 2 ≤ wc.length ∧ last2.all (fun c => decide (|c| < 0.1)) = true then
            ["Weight loss plateau detected"] else []
        let recent_mean := recent4.sum / 4
        let recent_variance := (recent4.map (fun w => (w - recent_mean) ^ 2)).sum / 4
        let initial_mean := initial4.sum / 4
        let initial_variance := (initial4.map (fun w => (w - initial_mean) ^ 2)).sum / 4
        let ind3 :=
          if recent_variance > initial_variance * 2 then
            ["Increased weight variability"] else []
        let indicators := ind1 ++ ind2 ++ ind3
        if indicators = [] then none
        else some (.ok ("diet_break", "Metabolic adaptation detected: " ++
          ", ".intercalate indicators))
    else none
  else none

/-- The maintenance check and goal-based default of `determine_diet_phase`
(macros.py lines 563-578). -/
def maintenanceAndDefault (u : User) (sorted : List WeightEntry)
    (current_rate : Option ℚ) (now : ℤ) : String × String :=
  let maint :=
    if u.goal = "lose" ∨ u.goal = "recomp" then
      match current_rate with
      | some cr =>
        let target_min := (weightLossTargets u.intensity).1
        if |cr| < target_min * 0.2 then
          let recent_entries :=
            sorted.filter (fun e => decide (now - e.date ≤ MAINTENANCE_PHASE_DURATION))
          if 3 ≤ recent_entries.length then
            let recent_changes := (recent_entries.zip recent_entries.tail).map
              (fun p => |p.2.weight - p.1.weight| * LB_TO_KG)
            if recent_changes.all (fun c => decide (c < target_min * 0.2)) then
              some ("maintenance", "Weight stable within maintenance range")
            else none
          else none
        else none
      | none => none
    else none
  maint.getD
    (if u.goal = "recomp" then ("recomp", "Active recomp phase")
     else if u.goal = "lose" then ("cut", "Active phase")
     else ("bulk", "Active phase"))

/-- Source `determine_diet_phase` (macros.py lines 516-578).  The 3-way unpacking
at line 530 propagates the `ValueError` of a 2-tuple result; the inner
division can raise `ZeroDivisionError`; both escape the function, which
has no exception handler. -/
def determine_diet_phase (u : User) (weight_entries : List WeightEntry) (now : ℤ) :
    Except String (String × String) :=
  if weight_entries.length < 2 then
    if u.goal = "recomp" then .ok ("recomp", "Initial recomp phase")
    else if u.goal = "lose" then .ok ("cut", "Initial phase")
    else .ok ("bulk", "Initial phase")
  else
    let sorted := sortEntries weight_entries
    match unpack3 (calculate_weekly_weight_changes weight_entries) with
    | .error e => .error e
    | .ok (weekly_changes, current_rate, _) =>
      match sorted with
      | [] => .error ("IndexError: list index out of range")
      | first :: _ =>
        match adaptationCheck u first.date weekly_changes now with
        | some r => r
        | none => .ok (maintenanceAndDefault u sorted current_rate now)

theorem cwwc_three_length {es : List WeightEntry} {a b c}
    (h : calculate_weekly_weight_changes es = PyTuple.three a b c) :
    2 ≤ es.length := by
  by_contra hlt
  push_neg at hlt
  unfold calculate_weekly_weight_changes at h
  rw [if_pos hlt] at h
  cases h

theorem unpack3_ok {t : PyTuple} {a b c} (h : unpack3 t = Except.ok (a, b, c)) :
    t = PyTuple.three a b c := by
  cases t with
  | two x y => cases h
  | three x y z =>
    simp only [unpack3, Except.ok.injEq, Prod.mk.injEq] at h
    obtain ⟨h1, h2, h3⟩ := h
    rw [h1, h2, h3]

/-- C7 counterexample.  A history of two entries on the same day 95 days
before the evaluation time, with goal `lose`: the history has at least 2
entries and its first entry is at least 90 days old, yet
`determine_diet_phase` does not return the diet-break pair — it raises
the `ValueError` of unpacking the 2-tuple that
`calculate_weekly_weight_changes` returns when all entries share one day. -/
theorem c7_counterexample :
    (2 ≤ ([⟨5, 180⟩, ⟨5, 181⟩] : List WeightEntry).length) ∧
    ((100 : ℤ) - 5 ≥ 90) ∧
    (∃ m, determine_diet_phase
      ⟨"male", 180, 70, 30, "moderate", "lose", "moderate", "lbs"⟩
      [⟨5, 180⟩, ⟨5, 181⟩] 100 = Except.error m) := by
  exact ⟨by decide, by decide,
    ⟨"ValueError: not enough values to unpack (expected 3, got 2)", by rfl⟩⟩

/-- C7 amended.  For every history whose weekly-change computation yields
its 3-tuple (that is, entries on at least two distinct dates — for a
degenerate same-day history the function instead propagates a
`ValueError`, see the counterexample), whose earliest entry lies at least
90 days before the evaluation time, and goal in {lose, recomp},
`determine_diet_phase` returns `("diet_break", "Extended deficit
period")` regardless of the weekly-change series, current rate and
trend. -/
theorem c7_amended_diet_break_override (u : User) (es : List WeightEntry) (now : ℤ)
    {wc : List ℚ} {cr tr : Option ℚ} {e0 : WeightEntry} {rest : List WeightEntry}
    (hgoal : u.goal = "lose" ∨ u.goal = "recomp")
    (hun : unpack3 (calculate_weekly_weight_changes es) = Except.ok (wc, cr, tr))
    (hsorted : sortEntries es = e0 :: rest)
    (h90 : now - e0.date ≥ 90) :
    determine_diet_phase u es now = Except.ok ("diet_break", "Extended deficit period") := by
  have hlen : 2 ≤ es.length := cwwc_three_length (unpack3_ok hun)
  have hac : adaptationCheck u e0.date wc now =
      some (Except.ok ("diet_break", "Extended deficit period")) := by
    unfold adaptationCheck
    rw [if_pos hgoal,
      if_pos (show now - e0.date ≥ MAX_DEFICIT_DURATION by
        simp only [MAX_DEFICIT_DURATION]; omega)]
  unfold determine_diet_phase
  rw [if_neg (by omega)]
  simp only [hun, hsorted, hac]

/-- Witness for C7 amended: goal `lose`, entries on days 0 and 7 at 180
and 179 lb, evaluated on day 95 (95 days after the first entry). -/
theorem c7_amended_diet_break_override_witness :
    determine_diet_phase ⟨"male", 180, 70, 30, "moderate", "lose", "moderate", "lbs"⟩
      [⟨0, 180⟩, ⟨7, 179⟩] 95 = Except.ok ("diet_break", "Extended deficit period") :=
  c7_amended_diet_break_override _ _ 95 (Or.inl rfl) rfl rfl (by decide)

/-- C10.  For goal in {lose, recomp}, a history whose weekly-change
computation succeeds with at least 4 weekly points, whose earliest entry
is less than 90 days old, and whose earliest 4 weekly points sum to
exactly zero, `determine_diet_phase` reaches the unguarded division
`recent_rate / initial_rate` with a zero divisor and raises
`ZeroDivisionError` instead of returning a phase. -/
theorem c10_phase_division_by_zero (u : User) (es : List WeightEntry) (now : ℤ)
    {wc : List ℚ} {cr tr : Option ℚ} {e0 : WeightEntry} {rest : List WeightEntry}
    (hgoal : u.goal = "lose" ∨ u.goal = "recomp")
    (hun : unpack3 (calculate_weekly_weight_changes es) = Except.ok (wc, cr, tr))
    (hsorted : sortEntries es = e0 :: rest)
    (h90 : now - e0.date < 90)
    (h4 : 4 ≤ wc.length)
    (h0 : (wc.take 4).sum = 0) :
    determine_diet_phase u es now =
      Except.error ("ZeroDivisionError: float division by zero") := by
  have hlen : 2 ≤ es.length := cwwc_three_length (unpack3_ok hun)
  have hz : (wc.take 4).sum / 4 = (0 : ℚ) := by rw [h0]; norm_num
  have hac : adaptationCheck u e0.date wc now =
      some (Except.error ("ZeroDivisionError: float division by zero")) := by
    unfold adaptationCheck
    rw [if_pos hgoal,
      if_neg (show ¬ now - e0.date ≥ MAX_DEFICIT_DURATION by
        simp only [MAX_DEFICIT_DURATION]; omega)]
    rw [if_pos h4]
    simp only [hz]
    simp
  unfold determine_diet_phase
  rw [if_neg (by omega)]
  simp only [hun, hsorted, hac]

/-- Witness for C10: goal `lose`, entries every 6 days at
180, 179, 178, 179, 180, 179 lb starting on day 0, evaluated on day 60.
The five weekly points are (in kg/week) -7/6, -7/6, +7/6, +7/6, -7/6
pounds-converted, so the earliest four sum to zero and the classifier
raises. -/
theorem c10_phase_division_by_zero_witness :
    determine_diet_phase ⟨"male", 180, 70, 30, "moderate", "lose", "moderate", "lbs"⟩
      [⟨0, 180⟩, ⟨6, 179⟩, ⟨12, 178⟩, ⟨18, 179⟩, ⟨24, 180⟩, ⟨30, 179⟩] 60 =
      Except.error ("ZeroDivisionError: float division by zero") :=
  c10_phase_division_by_zero _ _ 60 (Or.inl rfl) rfl rfl (by decide) (by decide) (by decide)

/-- Source `validate_unit` (macros.py lines 510-514). -/
def validate_unit (unit : String) : Except String Unit :=
  if unit = "lbs" ∨ unit = "kg" then .ok ()
  else .error ("Unit must be either lbs or kg")

/-- Source `validate_activity_level` (macros.py lines 504-508). -/
def validate_activity_level (a : String) : Except String Unit :=
  if a = "sedentary" ∨ a = "light" ∨ a = "moderate" ∨ a = "active" ∨ a = "very_active"
  then .ok ()
  else .error ("Invalid activity level. Must be one of: sedentary, light, moderate, active, very_active")

/-- Source `validate_calories` (macros.py lines 287-300): the calorie safety
gate, failing when calories fall below `max(min_calories_for_sex, bmr)`. -/
def validate_calories (calories bmr : ℚ) (gender : String) : Except String Unit :=
  if calories < max (if gender = "male" then MIN_CALORIES_MALE else MIN_CALORIES_FEMALE) bmr then
    .error ("Calculated calories are below the safe minimum. This deficit is too aggressive and could be harmful to your health.")
  else .ok ()

/-- Source `calculate_actual_tdee` (macros.py lines 218-285).  Returns `none`
for fewer than 2 entries; otherwise validates the first and last entry
weights (again passing the literal age `0`), so with 2 or more entries it
always raises. -/
def calculate_actual_tdee (u : User) (weight_entries : List WeightEntry) :
    Except String (Option ℚ) :=
  Except.mapError (fun e => "Error calculating actual TDEE: " ++ e)
    (match weight_entries with
     | [] => .ok none
     | [_] => .ok none
     | e1 :: e2 :: es =>
       let first := e1
       let last := (e2 :: es).getLast (List.cons_ne_nil e2 es)
       match validate_measurements first.weight u.height 0 with
       | .error e => .error e
       | .ok _ =>
         match validate_measurements last.weight u.height 0 with
         | .error e => .error e
         | .ok _ =>
           let weeks : ℚ := ((last.date - first.date : ℤ) : ℚ) / 7
           if weeks < 2 then .ok none
           else
             let first_weight_kg := first.weight * LB_TO_KG
             let last_weight_kg := last.weight * LB_TO_KG
             let weekly_change_kg := (last_weight_kg - first_weight_kg) / weeks
             match calculate_theoretical_tdee u with
             | .error e => .error e
             | .ok theoretical_tdee =>
               let calorie_adjustment := weekly_change_kg * CALORIE_ADJUSTMENT_FACTOR / 7
               let current_calories :=
                 if u.goal = "lose" then theoretical_tdee * (1 - 0.15)
                 else if u.goal = "gain" then theoretical_tdee * (1 + 0.05)
                 else theoretical_tdee
               let actual_tdee := current_calories - calorie_adjustment
               if actual_tdee ≤ 0 then
                 .error ("Calculated actual TDEE is invalid (must be positive)")
               else
                 let max_tdee_difference := theoretical_tdee * 0.3
                 if |actual_tdee - theoretical_tdee| > max_tdee_difference then
                   if actual_tdee > theoretical_tdee then
                     .ok (some (theoretical_tdee + max_tdee_difference))
                   else .ok (some (theoretical_tdee - max_tdee_difference))
                 else .ok (some actual_tdee))

/-- Source `calculate_weight_entry_quality` (macros.py lines 944-966). -/
def calculate_weight_entry_quality (weight_entries : List WeightEntry) : ℚ :=
  match weight_entries with
  | [] => 0
  | e :: es =>
    let sorted := sortEntries (e :: es)
    let first := sorted.headD e
    let last := sorted.getLastD e
    let total_days : ℚ := ((last.date - first.date : ℤ) : ℚ) + 1
    let entries_per_week := (((e :: es).length : ℕ) : ℚ) / (total_days / 7)
    let frequency_score := min (entries_per_week / MIN_WEIGHT_ENTRIES_PER_WEEK) 1
    let weights_kg := sorted.map (fun x => x.weight * LB_TO_KG)
    let mean := weights_kg.sum / ((weights_kg.length : ℕ) : ℚ)
    let variance := (weights_kg.map (fun w => (w - mean) ^ 2)).sum / ((weights_kg.length : ℕ) : ℚ)
    let consistency_score := 1 - min (variance / MAX_WEIGHT_VARIANCE) 1
    0.6 * frequency_score + 0.4 * consistency_score

/-- Source `calculate_maintenance_calories` (macros.py lines 580-591). -/
def calculate_maintenance_calories (tdee : ℚ) (diet_phase : String) : ℚ :=
  if diet_phase = "diet_break" then tdee * 1.1
  else if diet_phase = "maintenance" then tdee
  else tdee

/-- Python `round(q)`: round-half-to-even to an integer. -/
def pyround (q : ℚ) : ℤ :=
  let f := ⌊q⌋
  let r := q - f
  if r < 1 / 2 then f
  else if r > 1 / 2 then f + 1
  else if f % 2 = 0 then f else f + 1

/-- Python `round(q, d)`: round-half-to-even at `d` decimal places. -/
def pyroundTo (d : ℕ) (q : ℚ) : ℚ :=
  ((pyround (q * 10 ^ d) : ℤ) : ℚ) / 10 ^ d

/-- The `protein_multipliers` tables of `calculate_macros` (macros.py
lines 663-683): a base per-kg table keyed by activity level, replaced by
a higher table when goal is lose or recomp, every entry floored at
`MIN_PROTEIN_G_PER_KG`, with the dict lookup defaulting to
`MIN_PROTEIN_G_PER_KG`. -/
def proteinMultiplier (goal activity : String) : ℚ :=
  if goal = "lose" ∨ goal = "recomp" then
    if activity = "sedentary" then max 2.20 MIN_PROTEIN_G_PER_KG
    else if activity = "light" then max 2.42 MIN_PROTEIN_G_PER_KG
    else if activity = "moderate" then max 2.64 MIN_PROTEIN_G_PER_KG
    else if activity = "active" then max 2.86 MIN_PROTEIN_G_PER_KG
    else if activity = "very_active" then max 2.86 MIN_PROTEIN_G_PER_KG
    else MIN_PROTEIN_G_PER_KG
  else
    if activity = "sedentary" then max 1.76 MIN_PROTEIN_G_PER_KG
    else if activity = "light" then max 1.98 MIN_PROTEIN_G_PER_KG
    else if activity = "moderate" then max 2.20 MIN_PROTEIN_G_PER_KG
    else if activity = "active" then max 2.42 MIN_PROTEIN_G_PER_KG
    else if activity = "very_active" then max 2.64 MIN_PROTEIN_G_PER_KG
    else MIN_PROTEIN_G_PER_KG

/-- The protein grams reported in the plan (macros.py lines 683, 704 and
711/790): `protein_kg = weight_kg * multiplier`, then
`protein_lb = protein_kg * KG_TO_LB`, and the response reports
`round(protein_lb)` as `grams`. -/
def reportedProteinGrams (weight_kg : ℚ) (goal activity : String) : ℤ :=
  pyround (weight_kg * proteinMultiplier goal activity * KG_TO_LB)

/-- Source `fat_ranges.get(goal, (0.25, 0.35))` (macros.py lines 686-693). -/
def fatRanges (goal : String) : ℚ × ℚ :=
  if goal = "lose" then (0.20, 0.25)
  else if goal = "gain" then (0.25, 0.35)
  else if goal = "maintain" then (0.25, 0.35)
  else (0.25, 0.35)

/-- The numeric and phase fields of the plan dict built by
`calculate_macros` (macros.py lines 706-857).  Display-only
recommendation strings are omitted; the recomp-specific sub-block is
summarized by the `is_recomp` flag. -/
structure Macros where
  calories : ℤ
  protein_grams : ℤ
  protein_per_lb : ℚ
  protein_per_kg : ℚ
  fat_min : ℤ
  fat_max : ℤ
  carbs_min : ℤ
  carbs_max : ℤ
  tdee : ℤ
  bmr : ℤ
  adjustment_percentage : ℤ
  weekly_changes_kg : List ℚ
  current_rate_kg : Option ℚ
  trend_kg : Option ℚ
  diet_phase : String
  phase_reason : String
  is_recomp : Bool
deriving DecidableEq, Repr

/-- Source `calculate_macros` (macros.py lines 593-863).  The weight entries
parameter stands for the result of the DB query (entries of the last 4
weeks, ascending by date); `now` stands for `datetime.now()`.  The Python
`try/except` re-raise is modelled by the error-message prefix. -/
def calculate_macros (u : User) (weight_entries : List WeightEntry) (now : ℤ) :
    Except String Macros :=
  Except.mapError (fun e => "Error calculating macros: " ++ e)
    (match validate_unit u.preferred_unit with
     | .error e => .error e
     | .ok _ =>
       match validate_activity_level u.activity_level with
       | .error e => .error e
       | .ok _ =>
         match convert_to_metric u.weight u.height with
         | .error e => .error e
         | .ok (weight_kg, height_cm) =>
           match unpack3 (calculate_weekly_weight_changes weight_entries) with
           | .error e => .error e
           | .ok (weekly_changes, current_rate, trend) =>
             match calculate_actual_tdee u weight_entries with
             | .error e => .error e
             | .ok actual_tdee =>
               match calculate_theoretical_tdee u with
               | .error e => .error e
               | .ok theoretical_tdee =>
                 let entry_quality := calculate_weight_entry_quality weight_entries
                 let tdee :=
                   match actual_tdee with
                   | some a =>
                     if a ≠ 0 ∧ entry_quality < 0.7 then
                       theoretical_tdee * 0.7 + a * 0.3
                     else if a ≠ 0 then a else theoretical_tdee
                   | none => theoretical_tdee
                 let bmr := mifflinBmr u.gender weight_kg height_cm u.age
                 let intensity := u.intensity
                 match determine_diet_phase u weight_entries now with
                 | .error e => .error e
                 | .ok (diet_phase, phase_reason) =>
                   let maintenance_calories := calculate_maintenance_calories tdee diet_phase
                   let caloriesE : Except String ℚ :=
                     if diet_phase = "diet_break" then .ok maintenance_calories
                     else if diet_phase = "maintenance" then .ok maintenance_calories
                     else if u.goal = "lose" then
                       match calculate_adaptive_deficit u weight_entries intensity with
                       | .error e => .error e
                       | .ok d => .ok (tdee * (1 - d))
                     else if u.goal = "gain" then
                       match calculate_adaptive_surplus u weight_entries intensity with
                       | .error e => .error e
                       | .ok s => .ok (tdee * (1 + s))
                     else .ok tdee
                   match caloriesE with
                   | .error e => .error e
                   | .ok calories =>
                     match validate_calories calories bmr u.gender with
                     | .error e => .error e
                     | .ok _ =>
                       let mult := proteinMultiplier u.goal u.activity_level
                       let fr := fatRanges u.goal
                       let min_fat := calories * fr.1 / 9
                       let max_fat := calories * fr.2 / 9
                       let protein_kg := weight_kg * mult
                       let max_carbs := (calories - protein_kg * 4 - min_fat * 9) / 4
                       let min_carbs := (calories - protein_kg * 4 - max_fat * 9) / 4
                       .ok {
                         calories := pyround calories
                         protein_grams := reportedProteinGrams weight_kg u.goal u.activity_level
                         protein_per_lb := pyroundTo 2 (mult / KG_TO_LB)
                         protein_per_kg := pyroundTo 2 mult
                         fat_min := pyround min_fat
                         fat_max := pyround max_fat
                         carbs_min := pyround min_carbs
                         carbs_max := pyround max_carbs
                         tdee := pyround tdee
                         bmr := pyround bmr
                         adjustment_percentage := pyround ((calories / tdee - 1) * 100)
                         weekly_changes_kg := weekly_changes.map (pyroundTo 3)
                         current_rate_kg := current_rate.map (pyroundTo 3)
                         trend_kg := trend.map (pyroundTo 3)
                         diet_phase := diet_phase
                         phase_reason := phase_reason
                         is_recomp := u.goal = "recomp" })

theorem calculate_macros_never_ok (u : User) (es : List WeightEntry) (now : ℤ) :
    ∃ m, calculate_macros u es now = Except.error m := by
  obtain ⟨mc, hmc⟩ := convert_to_metric_always_errors u.weight u.height
  unfold calculate_macros
  cases h1 : validate_unit u.preferred_unit with
  | error e => exact ⟨_, rfl⟩
  | ok _ =>
    cases h2 : validate_activity_level u.activity_level with
    | error e => exact ⟨_, rfl⟩
    | ok _ => exact ⟨_, by rw [hmc]; rfl⟩

/-- C2.  The end-to-end scenario claims that the profile {male, 198.4 lb,
70.1 in, 30 yr, moderate, lose, moderate} with an empty history yields a
plan with BMR 1883.5 and calories about 2482.  In fact `calculate_macros`
raises for this (and every) input: `convert_to_metric` fails on its age-0
validation, and even apart from that the empty history makes the 3-way
unpacking of `calculate_weekly_weight_changes` raise `ValueError`.
Moreover the claimed BMR 1883.5 belongs to exactly 90 kg / 178 cm, while
the stated pound/inch profile converts to a BMR of 1867.764028. -/
theorem c2_endtoend_scenario_fails :
    (∃ m, calculate_macros
      ⟨"male", 198.4, 70.1, 30, "moderate", "lose", "moderate", "lbs"⟩ [] 100 =
        Except.error m) ∧
    mifflinBmr ("male") (198.4 * LB_TO_KG) (70.1 * INCH_TO_CM) 30 = 1867.764028 ∧
    mifflinBmr ("male") (198.4 * LB_TO_KG) (70.1 * INCH_TO_CM) 30 ≠ 1883.5 :=
  ⟨calculate_macros_never_ok _ _ _, by decide, by decide⟩

/-- C4.  The safety gate `validate_calories` does implement the claimed
floor `max(min_calories_for_sex, bmr)` exactly: it errors strictly below
the floor and succeeds at or above it.  But the enclosing claim about
plans of `calculate_macros` is vacuous on this code: `calculate_macros`
raises on every input (the age-0 conversion slip), so no plan — safe or
unsafe — is ever returned, and the `UnsafeCalorieError` path is
unreachable. -/
theorem c4_calorie_floor_gate :
    (∀ (c b : ℚ) (g : String),
      c < max (if g = "male" then MIN_CALORIES_MALE else MIN_CALORIES_FEMALE) b →
      ∃ m, validate_calories c b g = Except.error m) ∧
    (∀ (c b : ℚ) (g : String), validate_calories c b g = Except.ok () →
      max (if g = "male" then MIN_CALORIES_MALE else MIN_CALORIES_FEMALE) b ≤ c) ∧
    (∀ (u : User) (es : List WeightEntry) (now : ℤ),
      ∃ m, calculate_macros u es now = Except.error m) := by
  refine ⟨?_, ?_, fun u es now => calculate_macros_never_ok u es now⟩
  · intro c b g h
    unfold validate_calories
    rw [if_pos h]
    exact ⟨_, rfl⟩
  · intro c b g h
    by_contra hlt
    push_neg at hlt
    unfold validate_calories at h
    rw [if_pos hlt] at h
    cases h

/-- Witness for C4: the gate errors at 1000 kcal against a 1300 kcal BMR
for a female profile, succeeds at 2000 kcal, and `calculate_macros`
errors at a concrete valid profile. -/
theorem c4_calorie_floor_gate_witness :
    ((1000 : ℚ) < max (if "female" = "male" then MIN_CALORIES_MALE else MIN_CALORIES_FEMALE) 1300 ∧
      ∃ m, validate_calories 1000 1300 "female" = Except.error m) ∧
    (validate_calories 2000 1300 "female" = Except.ok () ∧
      max (if "female" = "male" then MIN_CALORIES_MALE else MIN_CALORIES_FEMALE) 1300 ≤ (2000 : ℚ)) ∧
    (∃ m, calculate_macros ⟨"female", 150, 65, 40, "light", "lose", "moderate", "lbs"⟩
      [⟨1, 150⟩, ⟨8, 149⟩] 10 = Except.error m) :=
  ⟨⟨by decide, c4_calorie_floor_gate.1 1000 1300 "female" (by decide)⟩,
   ⟨rfl, c4_calorie_floor_gate.2.1 2000 1300 "female" rfl⟩,
   c4_calorie_floor_gate.2.2 _ _ _⟩

/-- C8.  The claim states that reported protein grams equal
`weight_kg × multiplier` with every multiplier at least 1.7 g/kg.  The
multiplier floor does hold, but the reported grams are
`round(weight_kg × multiplier × KG_TO_LB)` — the source multiplies the
per-kg product by `KG_TO_LB = 2.20462` before reporting it as `grams`
(inconsistent with the `per_kg` multiplier field of the same plan): at 90 kg,
goal lose, moderate activity it reports 524 g instead of the claimed
238 g.  (Independently, no plan is ever returned at all: see C2/C4.) -/
theorem c8_protein_grams_inflated :
    reportedProteinGrams 90 "lose" "moderate" = 524 ∧
    pyround ((90 : ℚ) * proteinMultiplier ("lose") "moderate") = 238 ∧
    (524 : ℤ) ≠ 238 ∧
    (∀ g a : String, MIN_PROTEIN_G_PER_KG ≤ proteinMultiplier g a) := by
  refine ⟨by decide, by decide, by decide, ?_⟩
  intro g a
  unfold proteinMultiplier
  split_ifs <;> first
    | exact le_max_right _ _
    | exact le_refl _

/-- Stable insertion (descending by date) used to model the weight-entry
query `order_by(WeightEntry.date.desc())`. -/
def insertByDateDesc (e : WeightEntry) : List WeightEntry → List WeightEntry
  | [] => [e]
  | x :: xs => if e.date ≤ x.date then x :: insertByDateDesc e xs else e :: x :: xs

/-- Stable descending-by-date sort. -/
def sortEntriesDesc (es : List WeightEntry) : List WeightEntry :=
  es.foldl (fun acc e => insertByDateDesc e acc) []

/-- The query of `add_weight_entry` (macros.py lines 990-993): entries of
the last 7 days (`date >= now - 7 days`), ordered by date descending, so
the LAST element of this list is the OLDEST entry inside the window. -/
def recentEntriesDesc (history : List WeightEntry) (now : ℤ) : List WeightEntry :=
  sortEntriesDesc (history.filter (fun e => decide (now - 7 ≤ e.date)))

/-- The payload of the `requires_confirmation` JSON response (macros.py
lines 1007-1014). -/
structure ConfirmationInfo where
  current_weight : ℚ
  previous_weight : Option ℚ
  weight_change : ℚ
  unit : String
deriving DecidableEq, Repr

/-- Outcome of the weight-entry guard: either the confirmation request or
acceptance (the entry is created and stored in pounds). -/
inductive AddWeightResult where
  | requiresConfirmation (info : ConfirmationInfo)
  | accepted (stored_weight_lb : ℚ)
deriving DecidableEq, Repr

/-- Whether the guard outcome is a confirmation request. -/
def AddWeightResult.requires : AddWeightResult → Bool
  | .requiresConfirmation _ => true
  | .accepted _ => false

/-- The guard logic of the `add_weight_entry` route (macros.py lines
968-1028): unit normalization of the submitted weight, the last-7-days
descending query, comparison of the new weight (kg) against
`recent_entries[-1]` — the oldest entry of the window, or the new weight
itself when the window is empty — and the confirmation gate when the
change exceeds `MAX_WEIGHT_VARIANCE` and `confirmed` is not set. -/
def add_weight_entry (preferred_unit : String) (weight : ℚ) (unit : Option String)
    (confirmed : Bool) (history : List WeightEntry) (now : ℤ) : AddWeightResult :=
  let weight_kg := if unit.getD preferred_unit = "lbs" then weight * LB_TO_KG else weight
  let stored_weight_lb :=
    if unit.getD preferred_unit = "lbs" then weight else weight_kg * KG_TO_LB
  let recent_entries := recentEntriesDesc history now
  let last_weight_kg :=
    ((recent_entries.getLast?).map (fun e => e.weight * LB_TO_KG)).getD weight_kg
  let weight_change_kg := |weight_kg - last_weight_kg|
  if weight_change_kg > MAX_WEIGHT_VARIANCE then
    if confirmed = false then
      .requiresConfirmation {
        current_weight := if preferred_unit = "lbs" then stored_weight_lb else weight_kg
        previous_weight := (recent_entries.getLast?).map (fun e => e.weight)
        weight_change :=
          if preferred_unit = "lbs" then pyroundTo 1 (weight_change_kg * KG_TO_LB)
          else pyroundTo 1 weight_change_kg
        unit := preferred_unit }
    else .accepted stored_weight_lb
  else .accepted stored_weight_lb

/-- C6 counterexample.  History: 180 lb on day 94 and 190 lb on day 99,
submission of 190 lb on day 100 without `confirmed`.  The most recent
prior entry also weighs 190 lb — a kg-delta of 0, at most 2.0 kg — yet
the guard requests confirmation, because it compares against
`recent_entries[-1]`, the OLDEST entry of the descending 7-day window
(180 lb, a 4.54 kg delta).  This falsifies the claim that the guard never
flags when the delta from the most recent prior entry is at most 2 kg. -/
theorem c6_counterexample :
    ((add_weight_entry ("lbs") 190 none false [⟨94, 180⟩, ⟨99, 190⟩] 100).requires = true) ∧
    ((recentEntriesDesc [⟨94, 180⟩, ⟨99, 190⟩] 100).head?.map WeightEntry.weight = some 190) ∧
    (|(190 : ℚ) * LB_TO_KG - 190 * LB_TO_KG| ≤ MAX_WEIGHT_VARIANCE) := by
  refine ⟨by decide, by decide, ?_⟩
  norm_num [MAX_WEIGHT_VARIANCE]

/-- C6 amended.  The guard requests confirmation exactly when `confirmed`
is not set and the kg-delta of the new entry from the OLDEST entry within the
prior 7-day window exceeds 2.0 kg; when that window is empty the baseline
is the newly submitted weight itself (delta 0, never flagged). -/
theorem c6_amended_guard_characterization (pu : String) (w : ℚ) (unit : Option String)
    (conf : Bool) (history : List WeightEntry) (now : ℤ) :
    (add_weight_entry pu w unit conf history now).requires = true ↔
      (conf = false ∧
        MAX_WEIGHT_VARIANCE <
          |(if unit.getD pu = "lbs" then w * LB_TO_KG else w) -
            ((((recentEntriesDesc history now).getLast?).map
              (fun e => e.weight * LB_TO_KG)).getD
              (if unit.getD pu = "lbs" then w * LB_TO_KG else w))|) := by
  unfold add_weight_entry
  dsimp only
  split_ifs with h1 h2 <;> simp_all [AddWeightResult.requires]

/-- C9.  When no history entry is dated within the 7 days before
submission, the guard query comes back empty, the comparison baseline
defaults to the newly submitted weight itself (delta 0), and the guard
never requests confirmation — regardless of how far the new weight is
from the most recent older entry of the user. -/
theorem c9_no_recent_entry_never_flags (pu : String) (w : ℚ) (unit : Option String)
    (conf : Bool) (history : List WeightEntry) (now : ℤ)
    (h : ∀ e ∈ history, e.date < now - 7) :
    (add_weight_entry pu w unit conf history now).requires = false := by
  have hfil : history.filter (fun e => decide (now - 7 ≤ e.date)) = [] := by
    apply List.filter_eq_nil.mpr
    intro a ha
    simpa using not_le.mpr (h a ha)
  have hre : recentEntriesDesc history now = [] := by
    unfold recentEntriesDesc
    rw [hfil]
    rfl
  unfold add_weight_entry
  rw [hre]
  norm_num [AddWeightResult.requires, MAX_WEIGHT_VARIANCE]

/-- Witness for C9: a single entry 50 days old and a new weight of 250 lb
(a delta of more than 30 kg from that older entry) is accepted without a
confirmation request. -/
theorem c9_no_recent_entry_never_flags_witness :
    (∀ e ∈ ([⟨50, 180⟩] : List WeightEntry), e.date < (100 : ℤ) - 7) ∧
    (add_weight_entry ("lbs") 250 none false [⟨50, 180⟩] 100).requires = false :=
  ⟨by decide, c9_no_recent_entry_never_flags ("lbs") 250 none false [⟨50, 180⟩] 100 (by decide)⟩

end Simplifit
